import Mathlib

/-!
Verification of the genre aggregation and lift-computation pipeline of the
spotify-genre-analyzer repository.  The Python sources
(`src/build_genre_comparison_30d.py`, `src/build_genre_summary.py`) are
shallowly embedded: pandas frames become lists of records, timestamps become
integers, percentages become exact rationals, and fallible file loads become
`Except` values.  Every definition mirrors one function or expression of the
source; the theorems at the end of the file settle the frozen claims C1..C10.
-/

namespace SpotifyGenre

/-! ### Genre catalog normalizer (`to_list` in both pipeline scripts)

The `genres` column of `artist_genres.csv` holds serialized Python lists of
strings.  `to_list` inspects a cell and calls `ast.literal_eval` on strings.
We model the fragment of Python literals that such cells can hold: string and
integer atoms, and flat lists of atoms. -/

/-- Python literal atoms that can occur inside a serialized genre cell:
string literals and integer literals. -/
inductive PyAtom where
  | str (s : String)
  | int (n : Int)
deriving DecidableEq, Repr

/-- Result of `ast.literal_eval` on a genre cell: a single atom or a flat
list of atoms. -/
inductive PyLit where
  | atom (a : PyAtom)
  | list (xs : List PyAtom)
deriving DecidableEq, Repr

/-- Single-quote character (written via its code point). -/
def squote : Char := Char.ofNat 39

/-- Double-quote character (written via its code point). -/
def dquote : Char := Char.ofNat 34

/-- Drop leading whitespace, as Python's tokenizer does between tokens. -/
def skipWs : List Char → List Char
  | [] => []
  | c :: cs =>
    if c = ' ' ∨ c = Char.ofNat 9 ∨ c = Char.ofNat 10 ∨ c = Char.ofNat 13 then skipWs cs
    else c :: cs

/-- Parse the body of a quoted string literal (after the opening quote `q`),
handling the escape sequences that occur in serialized genre data; returns the
decoded characters together with the remainder after the closing quote. -/
def parseStrBody (q : Char) : List Char → Option (List Char × List Char)
  | [] => none
  | c :: cs =>
    if c = q then some ([], cs)
    else if c = Char.ofNat 92 then
      match cs with
      | [] => none
      | e :: cs2 =>
        match parseStrBody q cs2 with
        | none => none
        | some (body, rest) =>
          if e = 'n' then some (Char.ofNat 10 :: body, rest)
          else if e = 't' then some (Char.ofNat 9 :: body, rest)
          else if e = 'r' then some (Char.ofNat 13 :: body, rest)
          else if e = Char.ofNat 92 ∨ e = squote ∨ e = dquote then some (e :: body, rest)
          else none
    else
      match parseStrBody q cs with
      | none => none
      | some (body, rest) => some (c :: body, rest)

/-- Accumulate a maximal run of decimal digits onto `acc`. -/
def parseDigitsAux : Nat → List Char → Nat × List Char
  | acc, [] => (acc, [])
  | acc, c :: cs =>
    if c.isDigit then parseDigitsAux (acc * 10 + (c.toNat - 48)) cs else (acc, c :: cs)

/-- Parse one atom (string or integer literal), skipping leading whitespace. -/
def parseAtom (cs : List Char) : Option (PyAtom × List Char) :=
  match skipWs cs with
  | [] => none
  | c :: rest =>
    if c = squote ∨ c = dquote then
      match parseStrBody c rest with
      | some (body, r) => some (PyAtom.str (String.mk body), r)
      | none => none
    else if c = '-' then
      match rest with
      | [] => none
      | d :: _ =>
        if d.isDigit then
          let p := parseDigitsAux 0 rest
          some (PyAtom.int (-(p.1 : Int)), p.2)
        else none
    else if c.isDigit then
      let p := parseDigitsAux (c.toNat - 48) rest
      some (PyAtom.int (p.1 : Int), p.2)
    else none

/-- Parse the items of a list literal after the opening bracket, consuming the
closing bracket; Python's trailing comma is accepted.  `fuel` bounds the
recursion by the input length. -/
def parseItems : Nat → List Char → Option (List PyAtom × List Char)
  | 0, _ => none
  | fuel + 1, cs =>
    match skipWs cs with
    | ']' :: r => some ([], r)
    | cs2 =>
      match parseAtom cs2 with
      | none => none
      | some (v, r) =>
        match skipWs r with
        | ',' :: r2 =>
          (match parseItems fuel r2 with
           | some (vs, r3) => some (v :: vs, r3)
           | none => none)
        | ']' :: r2 => some ([v], r2)
        | _ => none

/-- Model of `ast.literal_eval` on the fragment of Python literals that genre
cells contain: an atom or a flat list of atoms.  `none` models the exception
that `to_list` catches. -/
def literalEval (s : String) : Option PyLit :=
  match skipWs s.data with
  | '[' :: rest =>
    (match parseItems (s.length + 1) rest with
     | some (xs, r) => if skipWs r = [] then some (PyLit.list xs) else none
     | none => none)
  | cs =>
    match parseAtom cs with
    | some (a, r) => if skipWs r = [] then some (PyLit.atom a) else none
    | none => none

/-- One cell of the `genres` column as seen by `to_list`: a Python list value,
a missing value (`pd.isna`), a string, or some other scalar. -/
inductive Cell where
  | pylist (xs : List PyAtom)
  | nan
  | strv (s : String)
  | other
deriving DecidableEq, Repr

/-- Model of `to_list` (textually identical in `build_genre_comparison_30d.py`
and `build_genre_summary.py`): lists pass through unchanged, missing values
and non-strings yield `[]`, strings are parsed with `ast.literal_eval` and the
result is kept only when it is a list; a parse failure (the caught exception)
also yields `[]`.  The Lean function is total, mirroring that the Python
function never raises. -/
def to_list : Cell → List PyAtom
  | Cell.pylist xs => xs
  | Cell.nan => []
  | Cell.strv s =>
    (match literalEval s with
     | some (PyLit.list xs) => xs
     | some (PyLit.atom _) => []
     | none => [])
  | Cell.other => []

/-! ### Record harmonizer and comparison pipeline
(`build_genre_comparison_30d.py`)

Input frames become lists of records.  A row of `recently_played.csv` or
`saved_tracks.csv` is a timestamp (`played_at` resp. `added_at`, modelled as
an integer) paired with the five shared track columns.  A row of the loaded
`artist_genres.csv` carries the genre list already normalized by `to_list`
(in `load_required` the column is mapped through `to_list` right after
reading); per the data contract its elements are genre strings. -/

/-- The five shared track columns `["track_id","track_name","artist_id",
"artist_name","album_name"]`, i.e. the projection `df_tracks[cols]`. -/
structure TrackRec where
  track_id : String
  track_name : String
  artist_id : String
  artist_name : String
  album_name : String
deriving DecidableEq, Repr

/-- A row of `artist_genres.csv` after `load_required` applied `to_list` to
the `genres` column. -/
structure CatalogRow where
  artist_id : String
  artist_name : String
  genres : List String
deriving DecidableEq, Repr

/-- A row of the exploded frame: one base track row paired with one genre
string (the spec's `GenreRow`). -/
abbrev GenreRow := TrackRec × String

/-- Helper for `dropDuplicates`: keep the first occurrence of each element,
remembering in `seen` the elements already emitted. -/
def dropDupAux {α : Type} [DecidableEq α] (seen : List α) : List α → List α
  | [] => []
  | x :: xs => if x ∈ seen then dropDupAux seen xs else x :: dropDupAux (x :: seen) xs

/-- Model of `DataFrame.drop_duplicates()`: keep the first occurrence of
every row. -/
def dropDuplicates {α : Type} [DecidableEq α] (l : List α) : List α :=
  dropDupAux [] l

/-- The catalog rows matching a base row, i.e. the right-hand matches of
`base.merge(genres[...], on=["artist_id","artist_name"], how="left")`. -/
def matchTags (genres : List CatalogRow) (b : TrackRec) : List CatalogRow :=
  genres.filter fun c => decide (c.artist_id = b.artist_id ∧ c.artist_name = b.artist_name)

/-- All genre strings attached to a base row by the left merge.  A base row
with no catalog match gets `NaN`, which the second `to_list` turns into `[]`;
`.explode("genres").dropna(subset=["genres"])` then keeps one row per genre
element and drops empty lists, so the net contribution of a base row is the
concatenation of the genre lists of its catalog matches. -/
def rowGenres (genres : List CatalogRow) (b : TrackRec) : List String :=
  (matchTags genres b).flatMap fun c => c.genres

/-- Model of `explode_with_genres(df_tracks, genres)`: project to the five
shared columns, drop duplicate rows, left-merge with the catalog and explode
the genre lists, dropping rows whose genre is missing. -/
def explode_with_genres (df_tracks : List (Int × TrackRec)) (genres : List CatalogRow) :
    List GenreRow :=
  let base := dropDuplicates (df_tracks.map Prod.snd)
  base.flatMap fun b => (rowGenres genres b).map fun g => (b, g)

/-- Lexicographic comparison of character lists, used to model the ascending
key order of `groupby`. -/
def charsLe : List Char → List Char → Bool
  | [], _ => true
  | _ :: _, [] => false
  | a :: as, b :: bs => if a = b then charsLe as bs else decide (a < b)

/-- Lexicographic order on strings (code-point order, as pandas sorts string
group keys). -/
def strLe (a b : String) : Bool := charsLe a.data b.data

/-- The distinct genre values of an exploded frame in ascending key order
(pandas sorts group keys; no property below depends on this order). -/
def genreKeys (exp : List GenreRow) : List String :=
  List.insertionSort (fun a b : String => strLe a b = true)
    (dropDuplicates (exp.map Prod.snd))

/-- Model of `exp.groupby("genres", as_index=False).size()`: one row per
distinct genre value, with the number of exploded rows carrying it. -/
def genreCounts (exp : List GenreRow) : List (String × Nat) :=
  (genreKeys exp).map fun g => (g, (exp.map Prod.snd).count g)

/-- A row of the final comparison frame, with exact rational percentages and
the undefined lift represented as `none` (pandas `None`/`NaN`). -/
structure CompRow where
  genre : String
  size_all : Nat
  size_30 : Nat
  pct_30 : ℚ
  pct_all : ℚ
  lift : Option ℚ
deriving DecidableEq, Repr

/-- Sort key of `comp.sort_values(["lift","size_30"], ascending=[False,
False])`: lift descending with missing lift last (pandas default
`na_position="last"`), then `size_30` descending. -/
def rowLE (a b : CompRow) : Bool :=
  match a.lift, b.lift with
  | none, none => decide (b.size_30 ≤ a.size_30)
  | none, some _ => false
  | some _, none => true
  | some x, some y => decide (y < x ∨ (y = x ∧ b.size_30 ≤ a.size_30))

/-- The sort relation of the final report as a proposition. -/
def RowLE (a b : CompRow) : Prop := rowLE a b = true

instance decRowLE : DecidableRel RowLE := fun a b =>
  inferInstanceAs (Decidable (rowLE a b = true))

/-- Column order of the empty-input artifact, written literally in the
`exp_all.empty` branch of `main`. -/
def emptyColumns : List String :=
  ["genre", "size_30", "pct_30", "size_all", "pct_all", "lift"]

/-- Column order of the non-empty comparison frame: `gall` contributes
`genre, size_all`, the merge appends `size_30`, then `pct_30`, `pct_all` and
`lift` are added in that order. -/
def reportColumns : List String :=
  ["genre", "size_all", "size_30", "pct_30", "pct_all", "lift"]

/-- The emitted artifact: its column order and its data rows. -/
structure Report where
  columns : List String
  rows : List CompRow
deriving DecidableEq, Repr

/-- Build one comparison row from the merged counts, following `main`:
`pct_30 = size_30/total_30` if the total is positive else `0` (same for
`pct_all`), and `lift = pct_30/pct_all` when `pct_all > 0`, else missing. -/
def mkCompRow (t30 tall : Nat) (g : String) (sa s30 : Nat) : CompRow :=
  let p30 : ℚ := if 0 < t30 then (s30 : ℚ) / (t30 : ℚ) else 0
  let pall : ℚ := if 0 < tall then (sa : ℚ) / (tall : ℚ) else 0
  { genre := g, size_all := sa, size_30 := s30, pct_30 := p30, pct_all := pall,
    lift := if 0 < pall then some (p30 / pall) else none }

/-- Model of `main` in `build_genre_comparison_30d.py`, up to the emitted
artifact.  The window filter `recent["played_at"] >= cutoff` keeps the
windowed branch; both branches are exploded; an empty all-time explosion
short-circuits to an empty artifact; otherwise the two groupbys are
left-joined on genre (`size_30` filled with `0`), percentages and lift are
computed from the column totals, and the frame is sorted by
`["lift","size_30"]` descending with missing lift last.  `pandas` uses an
unstable quicksort; any comparison sort agrees with it up to the order of
rows equal in both keys, which no property below depends on. -/
def mainReport (cutoff : Int) (recent saved : List (Int × TrackRec))
    (genres : List CatalogRow) : Report :=
  let recent_30 := recent.filter fun r => decide (cutoff ≤ r.1)
  let exp_30 := explode_with_genres recent_30 genres
  let exp_all := explode_with_genres (recent ++ saved) genres
  if exp_all = [] then { columns := emptyColumns, rows := [] }
  else
    let gall := genreCounts exp_all
    let g30 := genreCounts exp_30
    let comp := gall.map fun p => (p.1, p.2, (List.lookup p.1 g30).getD 0)
    let total_30 := (comp.map fun t => t.2.2).sum
    let total_all := (comp.map fun t => t.2.1).sum
    let rows := comp.map fun t => mkCompRow total_30 total_all t.1 t.2.1 t.2.2
    { columns := reportColumns, rows := List.insertionSort RowLE rows }

/-! ### Names for the intermediate frames of `main`

These abbreviations name the `let`-bound frames of `mainReport` so that the
theorems below can speak about them; each is definitionally the corresponding
local of `mainReport`. -/

/-- The windowed exploded branch: `explode_with_genres(recent_30, genres)`. -/
def exp30 (cutoff : Int) (recent : List (Int × TrackRec)) (genres : List CatalogRow) :
    List GenreRow :=
  explode_with_genres (recent.filter fun r => decide (cutoff ≤ r.1)) genres

/-- The all-time exploded branch:
`explode_with_genres(pd.concat([recent, saved]), genres)`. -/
def expAll (recent saved : List (Int × TrackRec)) (genres : List CatalogRow) :
    List GenreRow :=
  explode_with_genres (recent ++ saved) genres

/-- The merged frame `comp` before percentages: per all-time genre, its
`size_all` and the left-joined, zero-filled `size_30`. -/
def compTriples (cutoff : Int) (recent saved : List (Int × TrackRec))
    (genres : List CatalogRow) : List (String × Nat × Nat) :=
  (genreCounts (expAll recent saved genres)).map fun p =>
    (p.1, p.2, (List.lookup p.1 (genreCounts (exp30 cutoff recent genres))).getD 0)

/-- `total_30 = comp["size_30"].sum()`. -/
def total30 (cutoff : Int) (recent saved : List (Int × TrackRec))
    (genres : List CatalogRow) : Nat :=
  ((compTriples cutoff recent saved genres).map fun t => t.2.2).sum

/-- `total_all = comp["size_all"].sum()`. -/
def totalAll (cutoff : Int) (recent saved : List (Int × TrackRec))
    (genres : List CatalogRow) : Nat :=
  ((compTriples cutoff recent saved genres).map fun t => t.2.1).sum

/-- The unsorted comparison rows with percentages and lift attached. -/
def compRows (cutoff : Int) (recent saved : List (Int × TrackRec))
    (genres : List CatalogRow) : List CompRow :=
  (compTriples cutoff recent saved genres).map fun t =>
    mkCompRow (total30 cutoff recent saved genres) (totalAll cutoff recent saved genres)
      t.1 t.2.1 t.2.2

/-! ### Required-input loading (`load_required` and the existence check of
`build_genre_summary.main`)

Only file existence matters to claim C7, so the file system is modelled as
the set of paths that exist.  `ROOT` is deployment dependent; paths are
modelled relative to it. -/

/-- Path of the recent-plays table. -/
def recentPath : String := "data/processed/recently_played.csv"

/-- Path of the saved-library table. -/
def savedPath : String := "data/processed/saved_tracks.csv"

/-- Path of the artist-genre table. -/
def genresPath : String := "data/processed/artist_genres.csv"

/-- Message of the `FileNotFoundError` that `pd.read_csv` raises on a missing
file and that `load_required` does not catch. -/
def fnfMessage (p : String) : String :=
  "[Errno 2] No such file or directory: " ++ p

/-- Message passed to `sys.exit` by `build_genre_summary.main` when a required
input file is missing. -/
def missingMessage (p : String) : String :=
  "Missing " ++ p ++ ". Run fetch_spotify_data.py first."

/-- Model of one `pd.read_csv(p)` call: succeeds when the file exists, and
otherwise terminates the process with an uncaught `FileNotFoundError` (a
non-zero exit status). -/
def read_csv (fs : String → Bool) (p : String) : Except String Unit :=
  if fs p then Except.ok () else Except.error (fnfMessage p)

/-- Model of `load_required` in `build_genre_comparison_30d.py`: the three
inputs are read in order with no existence check, so the first missing file
aborts the run with the bare `FileNotFoundError` diagnostic. -/
def load_required (fs : String → Bool) : Except String Unit := do
  read_csv fs recentPath
  read_csv fs savedPath
  read_csv fs genresPath

/-- Model of the existence loop of `build_genre_summary.main`: the three paths
are checked in order and the first missing one aborts via
`sys.exit(f"Missing {p}. Run fetch_spotify_data.py first.")` (non-zero exit
status with that diagnostic). -/
def summaryMissingCheck (fs : String → Bool) : Except String Unit :=
  if fs recentPath = false then Except.error (missingMessage recentPath)
  else if fs savedPath = false then Except.error (missingMessage savedPath)
  else if fs genresPath = false then Except.error (missingMessage genresPath)
  else Except.ok ()

/-- Equality of `Except` results is decidable componentwise (used to state
concrete facts about the modelled process outcomes). -/
instance decEqExcept {ε α : Type} [DecidableEq ε] [DecidableEq α] : DecidableEq (Except ε α) :=
  fun a b =>
    match a, b with
    | Except.ok x, Except.ok y =>
      if h : x = y then isTrue (h ▸ rfl) else isFalse (fun hc => h (Except.ok.inj hc))
    | Except.ok _, Except.error _ => isFalse (fun hc => Except.noConfusion hc)
    | Except.error _, Except.ok _ => isFalse (fun hc => Except.noConfusion hc)
    | Except.error s, Except.error t =>
      if h : s = t then isTrue (h ▸ rfl) else isFalse (fun hc => h (Except.error.inj hc))

/-- The first missing path in the shared check/read order of both scripts. -/
def firstMissing (fs : String → Bool) : Option String :=
  if fs recentPath = false then some recentPath
  else if fs savedPath = false then some savedPath
  else if fs genresPath = false then some genresPath
  else none

/-- Boolean prefix test on character lists (used to state which diagnostics
name which artifacts). -/
def isPrefOf : List Char → List Char → Bool
  | [], _ => true
  | _ :: _, [] => false
  | a :: as, b :: bs => a == b && isPrefOf as bs

/-- Boolean substring test on character lists. -/
def containsSub (needle : List Char) : List Char → Bool
  | [] => isPrefOf needle []
  | c :: rest => isPrefOf needle (c :: rest) || containsSub needle rest

/-! ### Concrete data used by the witnesses -/

/-- Example track by the first example artist. -/
def exTrack1 : TrackRec :=
  { track_id := "t1", track_name := "Song A", artist_id := "a1",
    artist_name := "Artist One", album_name := "Album X" }

/-- Example track by the second example artist. -/
def exTrack2 : TrackRec :=
  { track_id := "t2", track_name := "Song B", artist_id := "a2",
    artist_name := "Artist Two", album_name := "Album Y" }

/-- Example genre catalog: two artists with two and one genre tags. -/
def exCat : List CatalogRow :=
  [ { artist_id := "a1", artist_name := "Artist One", genres := ["rock", "indie"] },
    { artist_id := "a2", artist_name := "Artist Two", genres := ["jazz"] } ]

/-- Example recent plays: one play inside the window. -/
def exRecent : List (Int × TrackRec) := [(100, exTrack1)]

/-- Example saved tracks: one save outside the window source. -/
def exSaved : List (Int × TrackRec) := [(50, exTrack2)]

/-- Example window cutoff: the play at time 100 is inside the last-30-days
window, the saved track never enters the windowed branch. -/
def exCutoff : Int := 90

/-- The comparison row of the example report for genre "indie". -/
def exRowIndie : CompRow :=
  { genre := "indie", size_all := 1, size_30 := 1, pct_30 := 1/2, pct_all := 1/3,
    lift := some (3/2) }

/-- The comparison row of the example report for genre "jazz": present only in
the all-time branch, hence `size_30 = 0` and lift defined and equal to `0`. -/
def exRowJazz : CompRow :=
  { genre := "jazz", size_all := 1, size_30 := 0, pct_30 := 0, pct_all := 1/3,
    lift := some 0 }

/-! ### Lemmas about the embedded operations -/

theorem mem_dropDupAux {α : Type} [DecidableEq α] (a : α) :
    ∀ (l seen : List α), a ∈ dropDupAux seen l ↔ a ∈ l ∧ a ∉ seen := by
  intro l
  induction l with
  | nil => intro seen; simp [dropDupAux]
  | cons x xs ih =>
    intro seen
    by_cases hx : x ∈ seen
    · rw [dropDupAux, if_pos hx, ih]
      constructor
      · rintro ⟨h1, h2⟩
        exact ⟨List.mem_cons_of_mem _ h1, h2⟩
      · rintro ⟨h1, h2⟩
        rcases List.mem_cons.1 h1 with h | h
        · exact absurd (h ▸ hx) h2
        · exact ⟨h, h2⟩
    · rw [dropDupAux, if_neg hx]
      constructor
      · intro h
        rcases List.mem_cons.1 h with h | h
        · subst h; exact ⟨List.mem_cons_self _ _, hx⟩
        · rcases (ih _).1 h with ⟨h1, h2⟩
          exact ⟨List.mem_cons_of_mem _ h1, fun hs => h2 (List.mem_cons_of_mem _ hs)⟩
      · rintro ⟨h1, h2⟩
        rcases List.mem_cons.1 h1 with h | h
        · subst h; exact List.mem_cons_self _ _
        · by_cases hax : a = x
          · subst hax; exact List.mem_cons_self _ _
          · refine List.mem_cons_of_mem _ ((ih _).2 ⟨h, fun hc => ?_⟩)
            rcases List.mem_cons.1 hc with h3 | h3
            · exact hax h3
            · exact h2 h3

theorem nodup_dropDupAux {α : Type} [DecidableEq α] :
    ∀ (l seen : List α), (dropDupAux seen l).Nodup := by
  intro l
  induction l with
  | nil => intro seen; simp [dropDupAux]
  | cons x xs ih =>
    intro seen
    by_cases hx : x ∈ seen
    · rw [dropDupAux, if_pos hx]; exact ih seen
    · rw [dropDupAux, if_neg hx]
      refine List.nodup_cons.2 ⟨fun hmem => ?_, ih _⟩
      exact ((mem_dropDupAux x xs (x :: seen)).1 hmem).2 (List.mem_cons_self _ _)

theorem mem_dropDuplicates {α : Type} [DecidableEq α] (a : α) (l : List α) :
    a ∈ dropDuplicates l ↔ a ∈ l := by
  simp [dropDuplicates, mem_dropDupAux]

theorem nodup_dropDuplicates {α : Type} [DecidableEq α] (l : List α) :
    (dropDuplicates l).Nodup :=
  nodup_dropDupAux l []

theorem lookup_map_key {β : Type} (f : String → β) (a : String) :
    ∀ keys : List String,
      List.lookup a (keys.map fun k => (k, f k)) = if a ∈ keys then some (f a) else none := by
  intro keys
  induction keys with
  | nil => simp
  | cons k ks ih =>
    by_cases hak : a = k
    · subst hak; simp [List.lookup]
    · have hbeq : (a == k) = false := beq_eq_false_iff_ne.mpr hak
      simp [List.lookup, ih, List.mem_cons, hak, hbeq]

theorem perm_genreKeys (exp : List GenreRow) :
    (genreKeys exp).Perm (dropDuplicates (exp.map Prod.snd)) :=
  List.perm_insertionSort _ _

theorem nodup_genreKeys (exp : List GenreRow) : (genreKeys exp).Nodup :=
  ((perm_genreKeys exp).nodup_iff).2 (nodup_dropDuplicates _)

theorem mem_genreKeys {g : String} {exp : List GenreRow} :
    g ∈ genreKeys exp ↔ g ∈ exp.map Prod.snd :=
  ((perm_genreKeys exp).mem_iff).trans (mem_dropDuplicates _ _)

theorem lookup_genreCounts (g : String) (exp : List GenreRow) :
    List.lookup g (genreCounts exp)
      = if g ∈ exp.map Prod.snd then some ((exp.map Prod.snd).count g) else none := by
  rw [genreCounts, lookup_map_key]
  by_cases h : g ∈ exp.map Prod.snd
  · rw [if_pos (mem_genreKeys.2 h), if_pos h]
  · rw [if_neg (fun hc => h (mem_genreKeys.1 hc)), if_neg h]

theorem sum_counts_over_keys (gs : List String) (keys : List String)
    (hnd : keys.Nodup) (hmem : ∀ g, g ∈ keys ↔ g ∈ gs) :
    (keys.map fun g => gs.count g).sum = gs.length := by
  have hperm : keys.Perm gs.dedup := by
    apply List.perm_of_nodup_nodup_toFinset_eq hnd (List.nodup_dedup gs)
    ext a
    simp only [List.mem_toFinset, List.mem_dedup]
    exact hmem a
  calc (keys.map fun g => gs.count g).sum
      = (gs.dedup.map fun g => gs.count g).sum := (hperm.map _).sum_eq
    _ = gs.length := List.sum_map_count_dedup_eq_length gs

theorem sum_genreCounts (exp : List GenreRow) :
    ((genreCounts exp).map fun p => p.2).sum = exp.length := by
  have hmap : (genreCounts exp).map (fun p => p.2)
      = (genreKeys exp).map fun g => (exp.map Prod.snd).count g := by
    simp [genreCounts, List.map_map]
  rw [hmap, sum_counts_over_keys _ _ (nodup_genreKeys exp) (fun g => mem_genreKeys),
    List.length_map]

theorem map_snd_explode (df : List (Int × TrackRec)) (cat : List CatalogRow) :
    (explode_with_genres df cat).map Prod.snd
      = (dropDuplicates (df.map Prod.snd)).flatMap (rowGenres cat) := by
  simp [explode_with_genres, List.map_flatMap, List.map_map, Function.comp]

theorem length_explode (df : List (Int × TrackRec)) (cat : List CatalogRow) :
    (explode_with_genres df cat).length
      = ((dropDuplicates (df.map Prod.snd)).map fun b => (rowGenres cat b).length).sum := by
  simp [explode_with_genres, List.length_flatMap, List.map_map, Function.comp_def]

theorem count_genres_explode (df : List (Int × TrackRec)) (cat : List CatalogRow) (g : String) :
    ((explode_with_genres df cat).map Prod.snd).count g
      = ((dropDuplicates (df.map Prod.snd)).map fun b => (rowGenres cat b).count g).sum := by
  rw [map_snd_explode, List.count_flatMap]
  rfl

theorem mem_base30_subset {cutoff : Int} {recent saved : List (Int × TrackRec)} {b : TrackRec}
    (hb : b ∈ dropDuplicates ((recent.filter fun r => decide (cutoff ≤ r.1)).map Prod.snd)) :
    b ∈ dropDuplicates ((recent ++ saved).map Prod.snd) := by
  rw [mem_dropDuplicates] at hb ⊢
  rcases List.mem_map.1 hb with ⟨r, hr, rfl⟩
  exact List.mem_map_of_mem _ (List.mem_append_left _ (List.mem_of_mem_filter hr))

theorem sum_le_of_nodup_subset {α : Type} [DecidableEq α] {l₁ l₂ : List α} (f : α → ℕ)
    (h₁ : l₁.Nodup) (h₂ : l₂.Nodup) (hsub : ∀ a ∈ l₁, a ∈ l₂) :
    (l₁.map f).sum ≤ (l₂.map f).sum := by
  rw [← List.sum_toFinset f h₁, ← List.sum_toFinset f h₂]
  exact Finset.sum_le_sum_of_subset
    (fun a ha => List.mem_toFinset.2 (hsub a (List.mem_toFinset.1 ha)))

theorem count_exp30_le_expAll (cutoff : Int) (recent saved : List (Int × TrackRec))
    (genres : List CatalogRow) (g : String) :
    ((exp30 cutoff recent genres).map Prod.snd).count g
      ≤ ((expAll recent saved genres).map Prod.snd).count g := by
  rw [exp30, expAll, count_genres_explode, count_genres_explode]
  exact sum_le_of_nodup_subset _ (nodup_dropDuplicates _) (nodup_dropDuplicates _)
    (fun b hb => mem_base30_subset hb)

theorem mem_genres30_subset {cutoff : Int} {recent saved : List (Int × TrackRec)}
    {genres : List CatalogRow} {g : String}
    (h : g ∈ (exp30 cutoff recent genres).map Prod.snd) :
    g ∈ (expAll recent saved genres).map Prod.snd := by
  have h1 : 0 < ((exp30 cutoff recent genres).map Prod.snd).count g := List.count_pos_iff.2 h
  exact List.count_pos_iff.1
    (lt_of_lt_of_le h1 (count_exp30_le_expAll cutoff recent saved genres g))

theorem exp30_eq_nil {cutoff : Int} {recent saved : List (Int × TrackRec)}
    {genres : List CatalogRow} (h : expAll recent saved genres = []) :
    exp30 cutoff recent genres = [] := by
  cases hE : exp30 cutoff recent genres with
  | nil => rfl
  | cons x xs =>
    exfalso
    have hx : x.2 ∈ (exp30 cutoff recent genres).map Prod.snd := by
      rw [hE]; exact List.mem_map_of_mem _ (List.mem_cons_self _ _)
    have hall := @mem_genres30_subset cutoff recent saved genres x.2 hx
    rw [h] at hall
    simp at hall

theorem mainReport_eq (cutoff : Int) (recent saved : List (Int × TrackRec))
    (genres : List CatalogRow) :
    mainReport cutoff recent saved genres
      = if expAll recent saved genres = [] then { columns := emptyColumns, rows := [] }
        else { columns := reportColumns,
               rows := List.insertionSort RowLE (compRows cutoff recent saved genres) } :=
  rfl

theorem mkCompRow_genre (t30 tall : Nat) (g : String) (sa s30 : Nat) :
    (mkCompRow t30 tall g sa s30).genre = g := rfl

theorem mkCompRow_size_all (t30 tall : Nat) (g : String) (sa s30 : Nat) :
    (mkCompRow t30 tall g sa s30).size_all = sa := rfl

theorem mkCompRow_size_30 (t30 tall : Nat) (g : String) (sa s30 : Nat) :
    (mkCompRow t30 tall g sa s30).size_30 = s30 := rfl

theorem mkCompRow_pct_30 (t30 tall : Nat) (g : String) (sa s30 : Nat) :
    (mkCompRow t30 tall g sa s30).pct_30
      = if 0 < t30 then (s30 : ℚ) / (t30 : ℚ) else 0 := rfl

theorem mkCompRow_pct_all (t30 tall : Nat) (g : String) (sa s30 : Nat) :
    (mkCompRow t30 tall g sa s30).pct_all
      = if 0 < tall then (sa : ℚ) / (tall : ℚ) else 0 := rfl

theorem mkCompRow_lift (t30 tall : Nat) (g : String) (sa s30 : Nat) :
    (mkCompRow t30 tall g sa s30).lift
      = if 0 < (mkCompRow t30 tall g sa s30).pct_all then
          some ((mkCompRow t30 tall g sa s30).pct_30 / (mkCompRow t30 tall g sa s30).pct_all)
        else none := rfl

theorem mkCompRow_pct_30_nonneg (t30 tall : Nat) (g : String) (sa s30 : Nat) :
    0 ≤ (mkCompRow t30 tall g sa s30).pct_30 := by
  rw [mkCompRow_pct_30]
  split
  · exact div_nonneg (Nat.cast_nonneg _) (Nat.cast_nonneg _)
  · exact le_refl 0

theorem mkCompRow_pct_all_nonneg (t30 tall : Nat) (g : String) (sa s30 : Nat) :
    0 ≤ (mkCompRow t30 tall g sa s30).pct_all := by
  rw [mkCompRow_pct_all]
  split
  · exact div_nonneg (Nat.cast_nonneg _) (Nat.cast_nonneg _)
  · exact le_refl 0

theorem mkCompRow_lift_spec (t30 tall : Nat) (g : String) (sa s30 : Nat) :
    (0 < (mkCompRow t30 tall g sa s30).pct_all →
        (mkCompRow t30 tall g sa s30).lift
          = some ((mkCompRow t30 tall g sa s30).pct_30 / (mkCompRow t30 tall g sa s30).pct_all))
    ∧ ((mkCompRow t30 tall g sa s30).lift = none ↔ (mkCompRow t30 tall g sa s30).pct_all = 0)
    ∧ ∀ x : ℚ, (mkCompRow t30 tall g sa s30).lift = some x → 0 ≤ x := by
  have hnn : 0 ≤ (mkCompRow t30 tall g sa s30).pct_all := mkCompRow_pct_all_nonneg t30 tall g sa s30
  have h30 : 0 ≤ (mkCompRow t30 tall g sa s30).pct_30 := mkCompRow_pct_30_nonneg t30 tall g sa s30
  refine ⟨fun hpos => ?_, ⟨fun hn => ?_, fun h0 => ?_⟩, fun x hx => ?_⟩
  · rw [mkCompRow_lift, if_pos hpos]
  · by_contra hne
    have hpos : 0 < (mkCompRow t30 tall g sa s30).pct_all := lt_of_le_of_ne hnn (Ne.symm hne)
    rw [mkCompRow_lift, if_pos hpos] at hn
    exact Option.some_ne_none _ hn
  · rw [mkCompRow_lift, if_neg (by rw [h0]; exact lt_irrefl 0)]
  · rw [mkCompRow_lift] at hx
    by_cases hpos : 0 < (mkCompRow t30 tall g sa s30).pct_all
    · rw [if_pos hpos] at hx
      cases hx
      exact div_nonneg h30 (le_of_lt hpos)
    · rw [if_neg hpos] at hx
      cases hx

theorem mem_compTriples {cutoff : Int} {recent saved : List (Int × TrackRec)}
    {genres : List CatalogRow} {t : String × Nat × Nat}
    (ht : t ∈ compTriples cutoff recent saved genres) :
    t.1 ∈ genreKeys (expAll recent saved genres)
    ∧ t.2.1 = ((expAll recent saved genres).map Prod.snd).count t.1
    ∧ t.2.2 = (List.lookup t.1 (genreCounts (exp30 cutoff recent genres))).getD 0 := by
  rcases List.mem_map.1 ht with ⟨p, hp, rfl⟩
  rcases List.mem_map.1 hp with ⟨g, hg, rfl⟩
  exact ⟨hg, rfl, rfl⟩

theorem mem_mainReport_rows {cutoff : Int} {recent saved : List (Int × TrackRec)}
    {genres : List CatalogRow} {r : CompRow}
    (hr : r ∈ (mainReport cutoff recent saved genres).rows) :
    ∃ t ∈ compTriples cutoff recent saved genres,
      r = mkCompRow (total30 cutoff recent saved genres)
            (totalAll cutoff recent saved genres) t.1 t.2.1 t.2.2 := by
  rw [mainReport_eq] at hr
  by_cases h : expAll recent saved genres = []
  · rw [if_pos h] at hr
    simp at hr
  · rw [if_neg h] at hr
    have hr2 : r ∈ compRows cutoff recent saved genres :=
      (List.perm_insertionSort RowLE _).mem_iff.1 hr
    rcases List.mem_map.1 hr2 with ⟨t, ht, rfl⟩
    exact ⟨t, ht, rfl⟩

theorem rowLE_total : ∀ a b : CompRow, rowLE a b = true ∨ rowLE b a = true := by
  intro a b
  cases ha : a.lift <;> cases hb : b.lift <;> simp [rowLE, ha, hb]
  · exact Nat.le_total b.size_30 a.size_30
  · rename_i x y
    rcases lt_trichotomy x y with h | h | h
    · exact Or.inr (Or.inl h)
    · rcases Nat.le_total b.size_30 a.size_30 with hs | hs
      · exact Or.inl (Or.inr ⟨h.symm, hs⟩)
      · exact Or.inr (Or.inr ⟨h, hs⟩)
    · exact Or.inl (Or.inl h)

theorem rowLE_trans :
    ∀ a b c : CompRow, rowLE a b = true → rowLE b c = true → rowLE a c = true := by
  intro a b c hab hbc
  cases ha : a.lift <;> cases hb : b.lift <;> cases hc : c.lift <;>
    simp [rowLE, ha, hb, hc] at hab hbc ⊢
  · exact Nat.le_trans hbc hab
  · rename_i x y z
    rcases hab with h1 | ⟨h1, hs1⟩
    · rcases hbc with h2 | ⟨h2, hs2⟩
      · exact Or.inl (lt_trans h2 h1)
      · exact Or.inl (h2 ▸ h1)
    · rcases hbc with h2 | ⟨h2, hs2⟩
      · exact Or.inl (h1 ▸ h2)
      · exact Or.inr ⟨h2.trans h1, Nat.le_trans hs2 hs1⟩

instance instIsTotalRowLE : IsTotal CompRow RowLE := ⟨rowLE_total⟩

instance instIsTransRowLE : IsTrans CompRow RowLE := ⟨fun a b c => rowLE_trans a b c⟩

theorem sum_toFinset_count {α : Type} [DecidableEq α] (l : List α) :
    ∑ x ∈ l.toFinset, l.count x = l.length := by
  simp

theorem sum_size30_rows (cutoff : Int) (recent saved : List (Int × TrackRec))
    (genres : List CatalogRow) (h : expAll recent saved genres ≠ []) :
    ((mainReport cutoff recent saved genres).rows.map fun r => r.size_30).sum
      = total30 cutoff recent saved genres := by
  rw [mainReport_eq, if_neg h]
  have hperm : ((List.insertionSort RowLE (compRows cutoff recent saved genres)).map
        fun r => r.size_30).Perm
      ((compRows cutoff recent saved genres).map fun r => r.size_30) :=
    (List.perm_insertionSort RowLE _).map _
  rw [hperm.sum_eq, compRows, List.map_map]
  rfl

theorem sum_sizeall_rows (cutoff : Int) (recent saved : List (Int × TrackRec))
    (genres : List CatalogRow) (h : expAll recent saved genres ≠ []) :
    ((mainReport cutoff recent saved genres).rows.map fun r => r.size_all).sum
      = totalAll cutoff recent saved genres := by
  rw [mainReport_eq, if_neg h]
  have hperm : ((List.insertionSort RowLE (compRows cutoff recent saved genres)).map
        fun r => r.size_all).Perm
      ((compRows cutoff recent saved genres).map fun r => r.size_all) :=
    (List.perm_insertionSort RowLE _).map _
  rw [hperm.sum_eq, compRows, List.map_map]
  rfl

theorem totalAll_eq_length (cutoff : Int) (recent saved : List (Int × TrackRec))
    (genres : List CatalogRow) :
    totalAll cutoff recent saved genres = (expAll recent saved genres).length := by
  rw [totalAll, compTriples, List.map_map]
  exact sum_genreCounts (expAll recent saved genres)

theorem total30_eq_length (cutoff : Int) (recent saved : List (Int × TrackRec))
    (genres : List CatalogRow) :
    total30 cutoff recent saved genres = (exp30 cutoff recent genres).length := by
  have h1 : (compTriples cutoff recent saved genres).map (fun t => t.2.2)
      = (genreKeys (expAll recent saved genres)).map
          (fun k => if k ∈ (exp30 cutoff recent genres).map Prod.snd
            then ((exp30 cutoff recent genres).map Prod.snd).count k else 0) := by
    rw [compTriples, List.map_map,
      show genreCounts (expAll recent saved genres)
          = (genreKeys (expAll recent saved genres)).map
              (fun k => (k, ((expAll recent saved genres).map Prod.snd).count k)) from rfl,
      List.map_map]
    refine List.map_congr_left fun k hk => ?_
    show (List.lookup k (genreCounts (exp30 cutoff recent genres))).getD 0 = _
    rw [lookup_genreCounts]
    by_cases hmem : k ∈ (exp30 cutoff recent genres).map Prod.snd
    · rw [if_pos hmem, if_pos hmem, Option.getD_some]
    · rw [if_neg hmem, if_neg hmem, Option.getD_none]
  rw [total30, h1,
    ← List.sum_toFinset _ (nodup_genreKeys (expAll recent saved genres))]
  have h3 : (genreKeys (expAll recent saved genres)).toFinset
      = ((expAll recent saved genres).map Prod.snd).toFinset := by
    ext a
    simp only [List.mem_toFinset]
    exact mem_genreKeys
  rw [h3]
  have hsub : ((exp30 cutoff recent genres).map Prod.snd).toFinset
      ⊆ ((expAll recent saved genres).map Prod.snd).toFinset := fun a ha =>
    List.mem_toFinset.2 (mem_genres30_subset (List.mem_toFinset.1 ha))
  rw [← Finset.sum_subset hsub (fun x _ hx => by
    rw [if_neg (fun hc => hx (List.mem_toFinset.2 hc))])]
  rw [Finset.sum_congr rfl (fun x hx => if_pos (List.mem_toFinset.1 hx)),
    sum_toFinset_count, List.length_map]

theorem sum_pct30_eq_one (cutoff : Int) (recent saved : List (Int × TrackRec))
    (genres : List CatalogRow) (h : expAll recent saved genres ≠ [])
    (hpos : 0 < total30 cutoff recent saved genres) :
    ((mainReport cutoff recent saved genres).rows.map fun r => r.pct_30).sum = 1 := by
  rw [mainReport_eq, if_neg h]
  have hperm : ((List.insertionSort RowLE (compRows cutoff recent saved genres)).map
        fun r => r.pct_30).Perm
      ((compRows cutoff recent saved genres).map fun r => r.pct_30) :=
    (List.perm_insertionSort RowLE _).map _
  rw [hperm.sum_eq, compRows, List.map_map]
  have h1 : ((compTriples cutoff recent saved genres).map
        ((fun r => r.pct_30) ∘ fun t =>
          mkCompRow (total30 cutoff recent saved genres) (totalAll cutoff recent saved genres)
            t.1 t.2.1 t.2.2))
      = (compTriples cutoff recent saved genres).map
          (fun t => (t.2.2 : ℚ) * ((total30 cutoff recent saved genres : ℚ))⁻¹) := by
    refine List.map_congr_left fun t ht => ?_
    show (mkCompRow _ _ _ _ _).pct_30 = _
    rw [mkCompRow_pct_30, if_pos hpos, div_eq_mul_inv]
  rw [h1, List.sum_map_mul_right]
  have h2 : ((compTriples cutoff recent saved genres).map fun t => (t.2.2 : ℚ)).sum
      = ((total30 cutoff recent saved genres : ℕ) : ℚ) := by
    rw [total30, Nat.cast_list_sum, List.map_map]
    rfl
  rw [h2]
  exact mul_inv_cancel₀ (ne_of_gt (by exact_mod_cast hpos))

theorem rows_genres_perm (cutoff : Int) (recent saved : List (Int × TrackRec))
    (genres : List CatalogRow) (h : expAll recent saved genres ≠ []) :
    ((mainReport cutoff recent saved genres).rows.map fun r => r.genre).Perm
      (genreKeys (expAll recent saved genres)) := by
  rw [mainReport_eq, if_neg h]
  have hp1 : ((List.insertionSort RowLE (compRows cutoff recent saved genres)).map
        fun r => r.genre).Perm
      ((compRows cutoff recent saved genres).map fun r => r.genre) :=
    (List.perm_insertionSort RowLE _).map _
  have hp2 : (compRows cutoff recent saved genres).map (fun r => r.genre)
      = genreKeys (expAll recent saved genres) := by
    rw [compRows, List.map_map, compTriples, List.map_map,
      show genreCounts (expAll recent saved genres)
          = (genreKeys (expAll recent saved genres)).map
              (fun k => (k, ((expAll recent saved genres).map Prod.snd).count k)) from rfl,
      List.map_map]
    simp [Function.comp_def, mkCompRow_genre]
  exact hp2 ▸ hp1

theorem isPrefOf_iff : ∀ n h : List Char, isPrefOf n h = true ↔ n <+: h := by
  intro n
  induction n with
  | nil => intro h; simp [isPrefOf, List.nil_prefix]
  | cons a as ih =>
    intro h
    cases h with
    | nil => simp [isPrefOf]
    | cons b bs => simp [isPrefOf, List.cons_prefix_cons, ih, Bool.and_eq_true, beq_iff_eq]

theorem containsSub_iff (n : List Char) : ∀ h : List Char, containsSub n h = true ↔ n <:+: h := by
  intro h
  induction h with
  | nil =>
    simp only [containsSub, isPrefOf_iff]
    rw [List.prefix_nil, List.infix_nil]
  | cons c cs ih =>
    simp only [containsSub, Bool.or_eq_true, isPrefOf_iff, ih]
    exact (List.infix_cons_iff).symm

theorem containsSub_missingMessage_path (p : String) :
    containsSub p.data (missingMessage p).data = true := by
  rw [containsSub_iff, missingMessage]
  exact ⟨"Missing ".data, ". Run fetch_spotify_data.py first.".data,
    by simp [String.data_append]⟩

theorem containsSub_missingMessage_step (p : String) :
    containsSub "fetch_spotify_data.py".data (missingMessage p).data = true := by
  rw [containsSub_iff, missingMessage]
  have hsplit : (". Run fetch_spotify_data.py first." : String).data
      = ". Run ".data ++ "fetch_spotify_data.py".data ++ " first.".data := by decide
  refine ⟨"Missing ".data ++ p.data ++ ". Run ".data, " first.".data, ?_⟩
  simp [String.data_append, hsplit]

theorem containsSub_fnf_path (p : String) :
    containsSub p.data (fnfMessage p).data = true := by
  rw [containsSub_iff, fnfMessage]
  exact ⟨"[Errno 2] No such file or directory: ".data, [], by simp [String.data_append]⟩

/-! ### The claims

Each claim is settled by one theorem; theorems with hypotheses come with a
witness instantiating them at the concrete example data, and refuted claims
come with a concrete counterexample.  The reducibility attributes let the
kernel evaluate the exact rational arithmetic in the witnesses. -/

attribute [local semireducible] Rat.add Rat.mul Rat.inv Rat.sub

/-- C1: in the comparison report, a row's lift equals `pct_30 / pct_all`
whenever that row's `pct_all > 0`, and lift is absent (`none` — not zero, not
infinite, not negative; indeed every defined lift value is a nonnegative
rational) exactly for rows with `pct_all = 0`. -/
theorem claim_C1_lift (cutoff : Int) (recent saved : List (Int × TrackRec))
    (genres : List CatalogRow) (r : CompRow)
    (hr : r ∈ (mainReport cutoff recent saved genres).rows) :
    (0 < r.pct_all → r.lift = some (r.pct_30 / r.pct_all))
    ∧ (r.lift = none ↔ r.pct_all = 0)
    ∧ ∀ x : ℚ, r.lift = some x → 0 ≤ x := by
  rcases mem_mainReport_rows hr with ⟨t, ht, rfl⟩
  exact mkCompRow_lift_spec _ _ _ _ _

/-- Witness for C1 at the example data: the "indie" row has positive
`pct_all` and its lift is the quotient of its percentages. -/
theorem claim_C1_lift_witness :
    exRowIndie ∈ (mainReport exCutoff exRecent exSaved exCat).rows
    ∧ 0 < exRowIndie.pct_all
    ∧ exRowIndie.lift = some (exRowIndie.pct_30 / exRowIndie.pct_all) :=
  ⟨by decide, by decide,
    (claim_C1_lift exCutoff exRecent exSaved exCat exRowIndie (by decide)).1 (by decide)⟩

/-- C2: `pct_30` of each report row equals `size_30` divided by the sum of
`size_30` over all rows when that sum is positive and `0` otherwise (same for
`pct_all`); consequently the `pct_30` values across the report sum to exactly
`1` whenever the `size_30` total is positive, and are all `0` otherwise. -/
theorem claim_C2_percentages (cutoff : Int) (recent saved : List (Int × TrackRec))
    (genres : List CatalogRow) :
    (∀ r ∈ (mainReport cutoff recent saved genres).rows,
        r.pct_30 = (if 0 < ((mainReport cutoff recent saved genres).rows.map
              fun x => x.size_30).sum
          then (r.size_30 : ℚ) / ((((mainReport cutoff recent saved genres).rows.map
              fun x => x.size_30).sum : ℕ) : ℚ)
          else 0)
        ∧ r.pct_all = (if 0 < ((mainReport cutoff recent saved genres).rows.map
              fun x => x.size_all).sum
          then (r.size_all : ℚ) / ((((mainReport cutoff recent saved genres).rows.map
              fun x => x.size_all).sum : ℕ) : ℚ)
          else 0))
    ∧ (0 < ((mainReport cutoff recent saved genres).rows.map fun x => x.size_30).sum →
        ((mainReport cutoff recent saved genres).rows.map fun r => r.pct_30).sum = 1)
    ∧ (((mainReport cutoff recent saved genres).rows.map fun x => x.size_30).sum = 0 →
        ∀ r ∈ (mainReport cutoff recent saved genres).rows, r.pct_30 = 0) := by
  by_cases h : expAll recent saved genres = []
  · have hrows : (mainReport cutoff recent saved genres).rows = [] := by
      rw [mainReport_eq, if_pos h]
    rw [hrows]
    simp
  · have h30 := sum_size30_rows cutoff recent saved genres h
    have hall := sum_sizeall_rows cutoff recent saved genres h
    rw [h30, hall]
    refine ⟨fun r hr => ?_, fun hpos => sum_pct30_eq_one cutoff recent saved genres h hpos,
      fun h0 r hr => ?_⟩
    · rcases mem_mainReport_rows hr with ⟨t, ht, rfl⟩
      rw [mkCompRow_size_30, mkCompRow_size_all]
      exact ⟨mkCompRow_pct_30 _ _ _ _ _, mkCompRow_pct_all _ _ _ _ _⟩
    · rcases mem_mainReport_rows hr with ⟨t, ht, rfl⟩
      rw [mkCompRow_pct_30, if_neg (by rw [h0]; exact lt_irrefl 0)]

/-- Witness for C2 at the example data: the windowed total is positive and the
`pct_30` column sums to exactly `1`. -/
theorem claim_C2_percentages_witness :
    0 < ((mainReport exCutoff exRecent exSaved exCat).rows.map fun x => x.size_30).sum
    ∧ ((mainReport exCutoff exRecent exSaved exCat).rows.map fun r => r.pct_30).sum = 1 :=
  ⟨by decide, (claim_C2_percentages exCutoff exRecent exSaved exCat).2.1 (by decide)⟩

/-- C3: the report's `size_all` column sums to the row count of the all-time
exploded branch and its `size_30` column sums to that of the windowed branch;
every genre of the windowed branch also occurs in the all-time branch (so the
left join on genre loses no windowed rows), and genres present only in the
all-time branch get `size_30 = 0`. -/
theorem claim_C3_conservation (cutoff : Int) (recent saved : List (Int × TrackRec))
    (genres : List CatalogRow) :
    (((mainReport cutoff recent saved genres).rows.map fun r => r.size_all).sum
        = (expAll recent saved genres).length)
    ∧ (((mainReport cutoff recent saved genres).rows.map fun r => r.size_30).sum
        = (exp30 cutoff recent genres).length)
    ∧ (∀ g, g ∈ (exp30 cutoff recent genres).map Prod.snd
        → g ∈ (expAll recent saved genres).map Prod.snd)
    ∧ (∀ r ∈ (mainReport cutoff recent saved genres).rows,
        r.genre ∉ (exp30 cutoff recent genres).map Prod.snd → r.size_30 = 0) := by
  refine ⟨?_, ?_, fun g hg => mem_genres30_subset hg, fun r hr hnot => ?_⟩
  · by_cases h : expAll recent saved genres = []
    · have hrows : (mainReport cutoff recent saved genres).rows = [] := by
        rw [mainReport_eq, if_pos h]
      rw [hrows, h]
      simp
    · rw [sum_sizeall_rows cutoff recent saved genres h, totalAll_eq_length]
  · by_cases h : expAll recent saved genres = []
    · have hrows : (mainReport cutoff recent saved genres).rows = [] := by
        rw [mainReport_eq, if_pos h]
      rw [hrows, exp30_eq_nil h]
      simp
    · rw [sum_size30_rows cutoff recent saved genres h, total30_eq_length]
  · rcases mem_mainReport_rows hr with ⟨t, ht, rfl⟩
    rcases mem_compTriples ht with ⟨hkey, hsa, hs30⟩
    rw [mkCompRow_genre] at hnot
    rw [mkCompRow_size_30, hs30, lookup_genreCounts, if_neg hnot, Option.getD_none]

/-- Witness for C3 at the example data: the "jazz" row is a report row whose
genre is absent from the windowed branch, and its `size_30` is `0`. -/
theorem claim_C3_conservation_witness :
    exRowJazz ∈ (mainReport exCutoff exRecent exSaved exCat).rows
    ∧ exRowJazz.genre ∉ (exp30 exCutoff exRecent exCat).map Prod.snd
    ∧ exRowJazz.size_30 = 0 :=
  ⟨by decide, by decide,
    (claim_C3_conservation exCutoff exRecent exSaved exCat).2.2.2 exRowJazz
      (by decide) (by decide)⟩

/-- C4: the comparison report is sorted by lift descending then `size_30`
descending among rows with defined lift, and every row with undefined lift
comes after every row with defined lift, regardless of its `size_30`. -/
theorem claim_C4_sorted (cutoff : Int) (recent saved : List (Int × TrackRec))
    (genres : List CatalogRow) :
    ((mainReport cutoff recent saved genres).rows).Pairwise fun a b =>
      (a.lift = none → b.lift = none)
      ∧ ∀ x y : ℚ, a.lift = some x → b.lift = some y →
          y < x ∨ (y = x ∧ b.size_30 ≤ a.size_30) := by
  rw [mainReport_eq]
  by_cases h : expAll recent saved genres = []
  · rw [if_pos h]
    simp
  · rw [if_neg h]
    have hs : List.Pairwise RowLE
        (List.insertionSort RowLE (compRows cutoff recent saved genres)) :=
      List.sorted_insertionSort RowLE _
    refine List.Pairwise.imp ?_ hs
    intro a b hab
    rw [RowLE] at hab
    constructor
    · intro han
      cases hbn : b.lift with
      | none => rfl
      | some y => simp [rowLE, han, hbn] at hab
    · intro x y hax hby
      simp [rowLE, hax, hby] at hab
      exact hab

/-- Witness for C4: the sortedness property instantiated at the example. -/
theorem claim_C4_sorted_witness :
    ((mainReport exCutoff exRecent exSaved exCat).rows).Pairwise fun a b =>
      (a.lift = none → b.lift = none)
      ∧ ∀ x y : ℚ, a.lift = some x → b.lift = some y →
          y < x ∨ (y = x ∧ b.size_30 ≤ a.size_30) :=
  claim_C4_sorted exCutoff exRecent exSaved exCat

/-- Counterexample to C5 as stated: the artist of `exTrack1` has `k = 2`
genre tags and `m = 2` plays of the same track (distinct timestamps `1` and
`2`), yet the exploded output has `2` rows, not `k × m = 4`: the projection to
the five shared columns discards the timestamps, so the two plays become
identical rows and `drop_duplicates` collapses them. -/
theorem claim_C5_counterexample :
    (rowGenres exCat exTrack1).length = 2
    ∧ (explode_with_genres [(1, exTrack1), (2, exTrack1)] exCat).length = 2
    ∧ (explode_with_genres [(1, exTrack1), (2, exTrack1)] exCat).length ≠ 2 * 2 := by
  decide

/-- C5 (amended): repeated plays of a track whose five shared columns agree
contribute exactly once — explicitly, a duplicated base row leaves the
exploded output unchanged — and an artist contributes one `GenreRow` per tag
per *distinct deduplicated* base row, so the output length is the sum over
deduplicated rows of the genre-sequence lengths (k per distinct row, not
k × m). -/
theorem claim_C5_amended (t₁ t₂ : Int) (b : TrackRec) (df : List (Int × TrackRec))
    (genres : List CatalogRow) :
    explode_with_genres ((t₁, b) :: (t₂, b) :: df) genres
      = explode_with_genres ((t₁, b) :: df) genres
    ∧ (explode_with_genres df genres).length
        = ((dropDuplicates (df.map Prod.snd)).map fun r => (rowGenres genres r).length).sum := by
  constructor
  · simp [explode_with_genres, dropDuplicates, dropDupAux]
  · exact length_explode df genres

/-- Witness for C5 (amended): collapsing the duplicated play of `exTrack1`. -/
theorem claim_C5_amended_witness :
    explode_with_genres [(1, exTrack1), (2, exTrack1)] exCat
      = explode_with_genres [(1, exTrack1)] exCat :=
  (claim_C5_amended 1 2 exTrack1 [] exCat).1

/-- Counterexample to C6 as stated: on empty inputs the emitted empty table
does not carry the claimed column order `[genre, size_all, size_30, pct_30,
pct_all, lift]` (it carries `[genre, size_30, pct_30, size_all, pct_all,
lift]` instead). -/
theorem claim_C6_counterexample :
    (mainReport 0 [] [] []).rows = []
    ∧ (mainReport 0 [] [] []).columns
        ≠ ["genre", "size_all", "size_30", "pct_30", "pct_all", "lift"] := by
  decide

/-- C6 (amended): when the all-time exploded set is non-empty the artifact has
columns exactly `[genre, size_all, size_30, pct_30, pct_all, lift]` in that
order with one row per distinct genre observed in the all-time union; when it
is empty the emitted table is empty with the same six columns but in the order
`[genre, size_30, pct_30, size_all, pct_all, lift]`, and the run terminates
successfully in both cases (`mainReport` is total). -/
theorem claim_C6_schema (cutoff : Int) (recent saved : List (Int × TrackRec))
    (genres : List CatalogRow) :
    ((expAll recent saved genres ≠ []) →
        (mainReport cutoff recent saved genres).columns = reportColumns
        ∧ ((mainReport cutoff recent saved genres).rows.map fun r => r.genre).Nodup
        ∧ ∀ g, (g ∈ (mainReport cutoff recent saved genres).rows.map fun r => r.genre)
            ↔ g ∈ (expAll recent saved genres).map Prod.snd)
    ∧ ((expAll recent saved genres = []) →
        (mainReport cutoff recent saved genres).columns = emptyColumns
        ∧ (mainReport cutoff recent saved genres).rows = []) := by
  constructor
  · intro h
    refine ⟨?_, ?_, ?_⟩
    · rw [mainReport_eq, if_neg h]
    · exact ((rows_genres_perm cutoff recent saved genres h).nodup_iff).2 (nodup_genreKeys _)
    · intro g
      rw [(rows_genres_perm cutoff recent saved genres h).mem_iff]
      exact mem_genreKeys
  · intro h
    rw [mainReport_eq, if_pos h]
    exact ⟨rfl, rfl⟩

/-- Witness for C6 (amended): the non-empty example report carries the
six-column order of the comparison frame, and the empty-input report carries
the literal column list of the empty branch. -/
theorem claim_C6_schema_witness :
    (mainReport exCutoff exRecent exSaved exCat).columns = reportColumns
    ∧ (mainReport 0 [] [] []).columns = emptyColumns :=
  ⟨((claim_C6_schema exCutoff exRecent exSaved exCat).1 (by decide)).1,
   ((claim_C6_schema 0 [] [] []).2 (by decide)).1⟩

/-- Counterexample to C7 as stated: with every input file missing, the
comparison builder terminates with the uncaught `FileNotFoundError` of
`pd.read_csv` — its diagnostic names the missing path but not the upstream
step (`fetch_spotify_data.py`) that should have produced it. -/
theorem claim_C7_counterexample :
    load_required (fun _ => false) = Except.error (fnfMessage recentPath)
    ∧ containsSub "fetch_spotify_data.py".data (fnfMessage recentPath).data = false := by
  decide

/-- C7 (amended): whenever a required input file is missing, both pipelines
terminate immediately with a non-zero status and fabricate no defaults; the
summary builder's diagnostic names the missing path and the upstream step
`fetch_spotify_data.py`, while the comparison builder's `load_required`
performs no existence check and dies with an uncaught file-not-found error
that names the path only. -/
theorem claim_C7_diagnostics (fs : String → Bool) (p : String)
    (h : firstMissing fs = some p) :
    summaryMissingCheck fs = Except.error (missingMessage p)
    ∧ containsSub p.data (missingMessage p).data = true
    ∧ containsSub "fetch_spotify_data.py".data (missingMessage p).data = true
    ∧ load_required fs = Except.error (fnfMessage p)
    ∧ containsSub p.data (fnfMessage p).data = true := by
  have hboth : summaryMissingCheck fs = Except.error (missingMessage p)
      ∧ load_required fs = Except.error (fnfMessage p) := by
    rw [firstMissing] at h
    split_ifs at h with h1 h2 h3
    · injection h with h4
      subst h4
      constructor
      · rw [summaryMissingCheck, if_pos h1]
      · simp [load_required, read_csv, h1, Bind.bind, Except.bind]
    · injection h with h4
      subst h4
      have h1t : fs recentPath = true := by
        revert h1; cases fs recentPath <;> simp
      constructor
      · rw [summaryMissingCheck, if_neg (by rw [h1t]; simp), if_pos h2]
      · simp [load_required, read_csv, h1t, h2, Bind.bind, Except.bind]
    · injection h with h4
      subst h4
      have h1t : fs recentPath = true := by
        revert h1; cases fs recentPath <;> simp
      have h2t : fs savedPath = true := by
        revert h2; cases fs savedPath <;> simp
      constructor
      · rw [summaryMissingCheck, if_neg (by rw [h1t]; simp), if_neg (by rw [h2t]; simp),
          if_pos h3]
      · simp [load_required, read_csv, h1t, h2t, h3, Bind.bind, Except.bind]
  exact ⟨hboth.1, containsSub_missingMessage_path p, containsSub_missingMessage_step p,
    hboth.2, containsSub_fnf_path p⟩

/-- Witness for C7 (amended): with no file present, the first missing path is
the recent-plays table; the summary builder exits with the full diagnostic and
the comparison builder with the bare file-not-found error. -/
theorem claim_C7_diagnostics_witness :
    summaryMissingCheck (fun _ => false) = Except.error (missingMessage recentPath)
    ∧ load_required (fun _ => false) = Except.error (fnfMessage recentPath) :=
  ⟨(claim_C7_diagnostics (fun _ => false) recentPath (by decide)).1,
   (claim_C7_diagnostics (fun _ => false) recentPath (by decide)).2.2.2.1⟩

/-- C8: for every genre-field value that is a syntactically valid serialized
list, `to_list` yields exactly the sequence that value denotes (no element
loss, order preserved), and every value that is already a sequence passes
through unchanged, preserving order and duplicates. -/
theorem claim_C8_roundtrip :
    (∀ xs : List PyAtom, to_list (Cell.pylist xs) = xs)
    ∧ ∀ (s : String) (xs : List PyAtom),
        literalEval s = some (PyLit.list xs) → to_list (Cell.strv s) = xs := by
  refine ⟨fun xs => rfl, fun s xs h => ?_⟩
  simp [to_list, h]

/-- Witness for C8: a concrete serialized two-element list (with a duplicate
preserved by the pass-through case) round-trips exactly. -/
theorem claim_C8_roundtrip_witness :
    literalEval "[\"rock\", \"indie pop\"]"
      = some (PyLit.list [PyAtom.str "rock", PyAtom.str "indie pop"])
    ∧ to_list (Cell.strv "[\"rock\", \"indie pop\"]")
        = [PyAtom.str "rock", PyAtom.str "indie pop"]
    ∧ to_list (Cell.pylist [PyAtom.str "rock", PyAtom.str "rock"])
        = [PyAtom.str "rock", PyAtom.str "rock"] :=
  ⟨by decide,
   claim_C8_roundtrip.2 "[\"rock\", \"indie pop\"]"
     [PyAtom.str "rock", PyAtom.str "indie pop"] (by decide),
   claim_C8_roundtrip.1 [PyAtom.str "rock", PyAtom.str "rock"]⟩

/-- C9: for every genre-field value that is missing, not a string, an
unparseable string, or a string parsing to a non-sequence, `to_list` returns
the empty sequence; it never raises (the model is a total function). -/
theorem claim_C9_malformed :
    to_list Cell.nan = [] ∧ to_list Cell.other = []
    ∧ (∀ s : String, literalEval s = none → to_list (Cell.strv s) = [])
    ∧ ∀ (s : String) (a : PyAtom),
        literalEval s = some (PyLit.atom a) → to_list (Cell.strv s) = [] := by
  refine ⟨rfl, rfl, fun s h => ?_, fun s a h => ?_⟩
  · simp [to_list, h]
  · simp [to_list, h]

/-- Witness for C9: an unparseable string and a string parsing to an integer
both normalize to the empty sequence. -/
theorem claim_C9_malformed_witness :
    literalEval "not a list" = none
    ∧ to_list (Cell.strv "not a list") = []
    ∧ literalEval "42" = some (PyLit.atom (PyAtom.int 42))
    ∧ to_list (Cell.strv "42") = [] :=
  ⟨by decide, claim_C9_malformed.2.2.1 "not a list" (by decide), by decide,
   claim_C9_malformed.2.2.2 "42" (PyAtom.int 42) (by decide)⟩

/-- C10 (implicit): every row of the comparison report satisfies
`size_30 ≤ size_all`, because the deduplicated windowed base rows are a subset
of the deduplicated all-time base rows and both sides are joined with the same
genre catalog.  (The spec withholds this guarantee; this code provides it.) -/
theorem claim_C10_monotone (cutoff : Int) (recent saved : List (Int × TrackRec))
    (genres : List CatalogRow) (r : CompRow)
    (hr : r ∈ (mainReport cutoff recent saved genres).rows) :
    r.size_30 ≤ r.size_all := by
  rcases mem_mainReport_rows hr with ⟨t, ht, rfl⟩
  rcases mem_compTriples ht with ⟨hkey, hsa, hs30⟩
  rw [mkCompRow_size_30, mkCompRow_size_all, hsa, hs30, lookup_genreCounts]
  by_cases h : t.1 ∈ (exp30 cutoff recent genres).map Prod.snd
  · rw [if_pos h, Option.getD_some]
    exact count_exp30_le_expAll cutoff recent saved genres t.1
  · rw [if_neg h, Option.getD_none]
    exact Nat.zero_le _

/-- Witness for C10 at the example data: the "indie" row of the report
satisfies the inequality. -/
theorem claim_C10_monotone_witness :
    exRowIndie ∈ (mainReport exCutoff exRecent exSaved exCat).rows
    ∧ exRowIndie.size_30 ≤ exRowIndie.size_all :=
  ⟨by decide, claim_C10_monotone exCutoff exRecent exSaved exCat exRowIndie (by decide)⟩

end SpotifyGenre
